import Mathlib

/-!
Verification of the core geometry and history logic of a canvas drawing
board application.

The definitions below are shallow embeddings of the TypeScript source:
JavaScript numbers are modelled as real numbers, element collections as
lists, and the mutating event handlers as pure state-passing functions.
Each definition mirrors one function of the source (the store actions,
the selection composable, and the canvas component).
-/

namespace DrawingBoard

noncomputable section

/-- Canvas point with real coordinates, mirroring the `Point` interface. -/
@[ext]

structure Point where
  x : ℝ
  y : ℝ

/-- Shape kinds of a drawing element (the non-select drawing tools). -/
inductive ElementType where
  | rectangle
  | ellipse
  | diamond
  | line
  | text
  | freehand
deriving DecidableEq

/-- Drawable element record, mirroring the `DrawingElement` interface. -/
structure DrawingElement where
  id : String
  type : ElementType
  points : List Point
  color : String
  strokeWidth : ℝ
  rotation : Option ℝ
  isSelected : Option Bool
  text : Option String

/-- Default point used when indexing a too-short point list. -/
def origin : Point := ⟨0, 0⟩

/-- First stored point of an element (the destructured `start`). -/
def startPt (el : DrawingElement) : Point := el.points.getD 0 origin

/-- Second stored point of an element (the destructured `end`). -/
def endPt (el : DrawingElement) : Point := el.points.getD 1 origin

/-- Rotation of `(x, y)` about `(centerX, centerY)` by `rotation` radians,
mirroring `rotatePoint` of the canvas component. -/
def rotatePoint (x y centerX centerY rotation : ℝ) : Point :=
  let dx := x - centerX
  let dy := y - centerY
  let c := Real.cos rotation
  let s := Real.sin rotation
  ⟨centerX + dx * c - dy * s, centerY + dx * s + dy * c⟩

/-- Inverse rotation of `(x, y)` about `(centerX, centerY)`, mirroring
`unrotatePoint` of the canvas component (cosine and sine of `-rotation`). -/
def unrotatePoint (x y centerX centerY rotation : ℝ) : Point :=
  let dx := x - centerX
  let dy := y - centerY
  let c := Real.cos (-rotation)
  let s := Real.sin (-rotation)
  ⟨centerX + dx * c - dy * s, centerY + dx * s + dy * c⟩

/-- History state of the canvas component: the live element collection of
the store together with the undo stack `history` and the `redoStack`.
Stacks grow at the end of the list (`push` appends, `pop` removes the
last entry), as in the source. -/
structure CanvasHistory where
  elements : List DrawingElement
  history : List (List DrawingElement)
  redoStack : List (List DrawingElement)

/-- Deep copy of the element collection, mirroring
`elements.map(el => (\x7b ...el, points: el.points.map(p => (\x7b ...p \x7d)) \x7d))`. -/
def deepCopy (els : List DrawingElement) : List DrawingElement :=
  els.map fun el => { el with points := el.points.map fun p => ⟨p.x, p.y⟩ }

/-- Snapshot push, mirroring `pushHistory`: push a deep copy of the live
elements onto the undo stack and clear the redo stack. -/
def pushHistory (st : CanvasHistory) : CanvasHistory :=
  { st with
    history := st.history ++ [deepCopy st.elements]
    redoStack := [] }

/-- Undo, mirroring `undo`: no-op on an empty undo stack, otherwise save
the live elements to the redo stack and restore the popped snapshot. -/
def undo (st : CanvasHistory) : CanvasHistory :=
  match st.history.getLast? with
  | none => st
  | some prev =>
      { elements := deepCopy prev
        history := st.history.dropLast
        redoStack := st.redoStack ++ [deepCopy st.elements] }

/-- Redo, mirroring `redo`: no-op on an empty redo stack, otherwise save
the live elements to the undo stack and restore the popped snapshot. -/
def redo (st : CanvasHistory) : CanvasHistory :=
  match st.redoStack.getLast? with
  | none => st
  | some next =>
      { elements := deepCopy next
        history := st.history ++ [deepCopy st.elements]
        redoStack := st.redoStack.dropLast }

/-- Distance from `p` to the segment `a b` with the projection parameter
clamped to the segment, mirroring `pointToLineDistance` of the selection
composable. -/
def pointToLineDistance (p a b : Point) : ℝ :=
  let A := p.x - a.x
  let B := p.y - a.y
  let C := b.x - a.x
  let D := b.y - a.y
  let dot := A * C + B * D
  let lenSq := C * C + D * D
  let param := if lenSq ≠ 0 then dot / lenSq else -1
  let xx := if param < 0 then a.x else if param > 1 then b.x else a.x + param * C
  let yy := if param < 0 then a.y else if param > 1 then b.y else a.y + param * D
  let dx := p.x - xx
  let dy := p.y - yy
  Real.sqrt (dx * dx + dy * dy)

/-- Freehand hit loop: some consecutive pair of points comes within 8 px
of `p` under the clamped point-to-segment distance, mirroring the
freehand loops of the selection composable and the canvas component. -/
def freehandHit (p : Point) : List Point → Prop
  | a :: b :: rest => pointToLineDistance p a b < 8 ∨ freehandHit p (b :: rest)
  | _ => False

/-- Hit test of the selection composable (`hitTest`): rectangle by
bounding box, ellipse by the normalized equation with a degenerate-radius
guard, line and freehand by clamped distance threshold, anything else
false. -/
def hitTest (p : Point) (el : DrawingElement) : Prop :=
  match el.type with
  | ElementType.rectangle =>
      let s := startPt el
      let e := endPt el
      let minX := min s.x e.x
      let maxX := max s.x e.x
      let minY := min s.y e.y
      let maxY := max s.y e.y
      minX ≤ p.x ∧ p.x ≤ maxX ∧ minY ≤ p.y ∧ p.y ≤ maxY
  | ElementType.ellipse =>
      let s := startPt el
      let e := endPt el
      let cx := (s.x + e.x) / 2
      let cy := (s.y + e.y) / 2
      let rx := |e.x - s.x| / 2
      let ry := |e.y - s.y| / 2
      if rx = 0 ∨ ry = 0 then False
      else (p.x - cx) ^ 2 / rx ^ 2 + (p.y - cy) ^ 2 / ry ^ 2 ≤ 1
  | ElementType.line => pointToLineDistance p (startPt el) (endPt el) < 8
  | ElementType.freehand => freehandHit p el.points
  | _ => False

/-- Hit test of the canvas component (`hitTestPointInElement`): the query
point is first unrotated into the element frame when a rotation is set;
rectangles, text boxes, ellipses and diamonds test the unrotated point
against the unrotated box, while lines and freehand strokes rotate their
own points and test the raw query point. The line branch divides the
cross-product by the segment length: it is the distance to the infinite
line, with no clamping to the segment. -/
def hitTestPointInElement (p : Point) (el : DrawingElement) : Prop :=
  let rotation := el.rotation.getD 0
  let s := startPt el
  let e := endPt el
  let minX := min s.x e.x
  let maxX := max s.x e.x
  let minY := min s.y e.y
  let maxY := max s.y e.y
  let centerX := (minX + maxX) / 2
  let centerY := (minY + maxY) / 2
  let testPoint := if rotation ≠ 0 then unrotatePoint p.x p.y centerX centerY rotation else p
  match el.type with
  | ElementType.text =>
      minX ≤ testPoint.x ∧ testPoint.x ≤ maxX ∧ minY ≤ testPoint.y ∧ testPoint.y ≤ maxY
  | ElementType.rectangle =>
      minX ≤ testPoint.x ∧ testPoint.x ≤ maxX ∧ minY ≤ testPoint.y ∧ testPoint.y ≤ maxY
  | ElementType.ellipse =>
      let rx := |e.x - s.x| / 2
      let ry := |e.y - s.y| / 2
      if rx = 0 ∨ ry = 0 then False
      else (testPoint.x - centerX) ^ 2 / rx ^ 2 + (testPoint.y - centerY) ^ 2 / ry ^ 2 ≤ 1
  | ElementType.diamond =>
      let width := |e.x - s.x|
      let height := |e.y - s.y|
      let dx := |testPoint.x - centerX|
      let dy := |testPoint.y - centerY|
      dx / (width / 2) + dy / (height / 2) ≤ 1
  | ElementType.line =>
      let lineStart := if rotation ≠ 0 then rotatePoint s.x s.y centerX centerY rotation else s
      let lineEnd := if rotation ≠ 0 then rotatePoint e.x e.y centerX centerY rotation else e
      let q := if rotation ≠ 0 then p else testPoint
      |(lineEnd.y - lineStart.y) * q.x - (lineEnd.x - lineStart.x) * q.y +
          lineEnd.x * lineStart.y - lineEnd.y * lineStart.x| /
        Real.sqrt ((lineEnd.y - lineStart.y) ^ 2 + (lineEnd.x - lineStart.x) ^ 2) < 8
  | ElementType.freehand =>
      let pts :=
        if rotation ≠ 0 then el.points.map fun q => rotatePoint q.x q.y centerX centerY rotation
        else el.points
      let q := if rotation ≠ 0 then p else testPoint
      freehandHit q pts

/-- Ellipse membership following the words of the spec: center and radii
derived by min/max from the stored two points, boundary points included,
degenerate radii excluded. Stated independently of the source functions
for comparison with them. -/
def specEllipseContains (s e p : Point) : Prop :=
  let minX := min s.x e.x
  let maxX := max s.x e.x
  let minY := min s.y e.y
  let maxY := max s.y e.y
  let cx := (minX + maxX) / 2
  let cy := (minY + maxY) / 2
  let rx := (maxX - minX) / 2
  let ry := (maxY - minY) / 2
  rx ≠ 0 ∧ ry ≠ 0 ∧ (p.x - cx) ^ 2 / rx ^ 2 + (p.y - cy) ^ 2 / ry ^ 2 ≤ 1

/-- Example ellipse with stored points `(0,0)` and `(100,50)`. -/
def ellipseEx : DrawingElement :=
  { id := "e1"
    type := ElementType.ellipse
    points := [⟨0, 0⟩, ⟨100, 50⟩]
    color := "#000000"
    strokeWidth := 2
    rotation := none
    isSelected := none
    text := none }

/-- Example line element with endpoints `(0,0)` and `(10,0)`. -/
def lineEx : DrawingElement :=
  { id := "l1"
    type := ElementType.line
    points := [⟨0, 0⟩, ⟨10, 0⟩]
    color := "#000000"
    strokeWidth := 2
    rotation := none
    isSelected := none
    text := none }

/-- Resize anchors of the selection composable (`getAnchors`): four
corners and four edge midpoints of the normalized bounding box for
rectangles, ellipses and text boxes; the two endpoints for lines; empty
otherwise. -/
def getAnchors (el : DrawingElement) : List Point :=
  if el.type = ElementType.rectangle ∨ el.type = ElementType.ellipse ∨
      el.type = ElementType.text then
    let s := startPt el
    let e := endPt el
    let minX := min s.x e.x
    let maxX := max s.x e.x
    let minY := min s.y e.y
    let maxY := max s.y e.y
    let centerX := (minX + maxX) / 2
    let centerY := (minY + maxY) / 2
    [⟨minX, minY⟩, ⟨centerX, minY⟩, ⟨maxX, minY⟩, ⟨maxX, centerY⟩,
      ⟨maxX, maxY⟩, ⟨centerX, maxY⟩, ⟨minX, maxY⟩, ⟨minX, centerY⟩]
  else if el.type = ElementType.line then
    [el.points.getD 0 origin, el.points.getD 1 origin]
  else []

/-- Anchor-drag resize of the selection composable (`resizeElement`): for
box shapes the switch updates the raw stored corner copies from the
dragged anchor and the result is re-normalized to (min-corner,
max-corner); for lines the dragged endpoint is replaced. -/
def resizeElement (el : DrawingElement) (anchorIdx : ℕ) (tgt : Point) : DrawingElement :=
  if el.type = ElementType.rectangle ∨ el.type = ElementType.ellipse ∨
      el.type = ElementType.diamond ∨ el.type = ElementType.text then
    let s := startPt el
    let e := endPt el
    let ns : Point × Point :=
      match anchorIdx with
      | 0 => (tgt, e)
      | 1 => (⟨s.x, tgt.y⟩, e)
      | 2 => (⟨s.x, tgt.y⟩, ⟨tgt.x, e.y⟩)
      | 3 => (s, ⟨tgt.x, e.y⟩)
      | 4 => (s, tgt)
      | 5 => (s, ⟨e.x, tgt.y⟩)
      | 6 => (⟨tgt.x, s.y⟩, ⟨e.x, tgt.y⟩)
      | 7 => (⟨tgt.x, s.y⟩, e)
      | _ => (s, e)
    { el with points :=
        [⟨min ns.1.x ns.2.x, min ns.1.y ns.2.y⟩, ⟨max ns.1.x ns.2.x, max ns.1.y ns.2.y⟩] }
  else if el.type = ElementType.line then
    { el with points := el.points.set anchorIdx tgt }
  else el

/-- Non-crossing condition for an anchor drag: the dragged coordinates of
the target stay on their original side of the fixed opposite anchor. -/
def noCross (anchorIdx : ℕ) (s e tgt : Point) : Prop :=
  match anchorIdx with
  | 0 => tgt.x ≤ e.x ∧ tgt.y ≤ e.y
  | 1 => tgt.y ≤ e.y
  | 2 => s.x ≤ tgt.x ∧ tgt.y ≤ e.y
  | 3 => s.x ≤ tgt.x
  | 4 => s.x ≤ tgt.x ∧ s.y ≤ tgt.y
  | 5 => s.y ≤ tgt.y
  | 6 => tgt.x ≤ e.x ∧ s.y ≤ tgt.y
  | 7 => tgt.x ≤ e.x
  | _ => False

/-- Example rectangle with stored points `(0,0)` and `(100,50)`. -/
def rectEx : DrawingElement :=
  { id := "r1"
    type := ElementType.rectangle
    points := [⟨0, 0⟩, ⟨100, 50⟩]
    color := "#000000"
    strokeWidth := 2
    rotation := none
    isSelected := none
    text := none }

/-- Rotation-aware resize of the canvas component
(`resizeElementWithRotation`). Lines move the dragged endpoint, unrotated
into the element frame when a rotation is set. Unrotated box shapes
delegate to `resizeElement`. Rotated box shapes scale incrementally from
the mouse delta relative to the interaction `startPoint`, clamp the new
size to a 10 px floor and re-center the stored box about the old center;
the function threads the `startPoint` and `dragOffset` interaction state
it reads and writes, and is a no-op when `startPoint` is unset. -/
def resizeElementWithRotation (el : DrawingElement) (anchorIdx : ℕ) (tgt : Point)
    (startPoint dragOffset : Option Point) :
    DrawingElement × Option Point × Option Point :=
  if el.type = ElementType.line then
    let s := startPt el
    let e := endPt el
    let rotation := el.rotation.getD 0
    let centerX := (s.x + e.x) / 2
    let centerY := (s.y + e.y) / 2
    if rotation ≠ 0 then
      let unrotated := unrotatePoint tgt.x tgt.y centerX centerY rotation
      if anchorIdx = 0 then
        ({ el with points := el.points.set 0 unrotated }, startPoint, dragOffset)
      else
        ({ el with points := el.points.set 1 unrotated }, startPoint, dragOffset)
    else
      if anchorIdx = 0 then
        ({ el with points := el.points.set 0 tgt }, startPoint, dragOffset)
      else
        ({ el with points := el.points.set 1 tgt }, startPoint, dragOffset)
  else
    let s := startPt el
    let e := endPt el
    let minX := min s.x e.x
    let maxX := max s.x e.x
    let minY := min s.y e.y
    let maxY := max s.y e.y
    let centerX := (minX + maxX) / 2
    let centerY := (minY + maxY) / 2
    let rotation := el.rotation.getD 0
    if rotation = 0 then
      (resizeElement el anchorIdx tgt, startPoint, dragOffset)
    else
      let anchors : List Point :=
        [⟨minX, minY⟩, ⟨centerX, minY⟩, ⟨maxX, minY⟩, ⟨maxX, centerY⟩,
          ⟨maxX, maxY⟩, ⟨centerX, maxY⟩, ⟨minX, maxY⟩, ⟨minX, centerY⟩]
      let rotatedAnchors := anchors.map fun a => rotatePoint a.x a.y centerX centerY rotation
      let oppositeIdx := (anchorIdx + 4) % 8
      let oppositeAnchor := rotatedAnchors.getD oppositeIdx origin
      let currentAnchor := rotatedAnchors.getD anchorIdx origin
      let originalWidth := maxX - minX
      let originalHeight := maxY - minY
      match startPoint with
      | none => (el, none, dragOffset)
      | some sp =>
          let mouseDeltaX := tgt.x - sp.x
          let mouseDeltaY := tgt.y - sp.y
          let dragOffset2 := match dragOffset with
            | none => some origin
            | some d => some d
          let scale : ℝ × ℝ :=
            if anchorIdx = 0 ∨ anchorIdx = 2 ∨ anchorIdx = 4 ∨ anchorIdx = 6 then
              let anchorToOppositeX := oppositeAnchor.x - currentAnchor.x
              let anchorToOppositeY := oppositeAnchor.y - currentAnchor.y
              let anchorToOppositeLength :=
                Real.sqrt (anchorToOppositeX * anchorToOppositeX +
                  anchorToOppositeY * anchorToOppositeY)
              let projectionLength :=
                (mouseDeltaX * anchorToOppositeX + mouseDeltaY * anchorToOppositeY) /
                  anchorToOppositeLength
              let direction :=
                -Real.sign (anchorToOppositeX * mouseDeltaX + anchorToOppositeY * mouseDeltaY)
              let changeAmount := |projectionLength| / 100
              (direction * changeAmount, direction * changeAmount)
            else if anchorIdx = 1 ∨ anchorIdx = 5 then
              let anchorToOppositeY := oppositeAnchor.y - currentAnchor.y
              let direction := -Real.sign (anchorToOppositeY * mouseDeltaY)
              let changeAmount := |mouseDeltaY| / 100
              (0, direction * changeAmount)
            else if anchorIdx = 3 ∨ anchorIdx = 7 then
              let anchorToOppositeX := oppositeAnchor.x - currentAnchor.x
              let direction := -Real.sign (anchorToOppositeX * mouseDeltaX)
              let changeAmount := |mouseDeltaX| / 100
              (direction * changeAmount, 0)
            else (0, 0)
          let newWidth := max 10 (originalWidth * (1 + scale.1))
          let newHeight := max 10 (originalHeight * (1 + scale.2))
          ({ el with points :=
              [⟨centerX - newWidth / 2, centerY - newHeight / 2⟩,
                ⟨centerX + newWidth / 2, centerY + newHeight / 2⟩] },
            some tgt, dragOffset2)

/-- Example rotated rectangle with stored points `(40,40)` and `(60,60)`
and rotation 1 radian. -/
def rotEx : DrawingElement :=
  { id := "r2"
    type := ElementType.rectangle
    points := [⟨40, 40⟩, ⟨60, 60⟩]
    color := "#000000"
    strokeWidth := 2
    rotation := some 1
    isSelected := none
    text := none }

/-- Example degenerate rotated rectangle: both stored points are `(50,50)`
and the rotation is 1 radian, so every anchor coincides with the center
and the opposite-anchor vector has length zero. -/
def degenEx : DrawingElement :=
  { id := "r3"
    type := ElementType.rectangle
    points := [⟨50, 50⟩, ⟨50, 50⟩]
    color := "#000000"
    strokeWidth := 2
    rotation := some 1
    isSelected := none
    text := none }

/-- Partial element update, mirroring `Partial<DrawingElement>`: every
field may be present or absent. -/
structure ElementUpdate where
  id : Option String
  type : Option ElementType
  points : Option (List Point)
  color : Option String
  strokeWidth : Option ℝ
  rotation : Option ℝ
  isSelected : Option Bool
  text : Option String

/-- Field merge of `Object.assign(element, updates)`: every field present
in the partial update overwrites the element's field. -/
def objectAssign (el : DrawingElement) (u : ElementUpdate) : DrawingElement :=
  { id := u.id.getD el.id
    type := u.type.getD el.type
    points := u.points.getD el.points
    color := u.color.getD el.color
    strokeWidth := u.strokeWidth.getD el.strokeWidth
    rotation := match u.rotation with
      | some r => some r
      | none => el.rotation
    isSelected := match u.isSelected with
      | some b => some b
      | none => el.isSelected
    text := match u.text with
      | some t => some t
      | none => el.text }

/-- Store action `updateElement`: find the first element with the given
id and merge the partial update into it in place; all other elements and
the list shape are untouched. -/
def updateElement (els : List DrawingElement) (targetId : String) (u : ElementUpdate) :
    List DrawingElement :=
  match els with
  | [] => []
  | el :: rest =>
      if el.id = targetId then objectAssign el u :: rest
      else el :: updateElement rest targetId u

/-- Example id-free partial update: change the color only. -/
def updEx : ElementUpdate :=
  { id := none
    type := none
    points := none
    color := some "#ff0000"
    strokeWidth := none
    rotation := none
    isSelected := none
    text := none }

/-- Example partial update that itself carries an `id` field. -/
def updIdEx : ElementUpdate :=
  { id := some "b"
    type := none
    points := none
    color := none
    strokeWidth := none
    rotation := none
    isSelected := none
    text := none }

/-- Drag translation of the pointer-move handler: every selected element
has all of its points translated by the pointer delta, every unselected
element is left untouched. -/
def dragSelected (els : List DrawingElement) (selectedIds : List String) (dx dy : ℝ) :
    List DrawingElement :=
  els.map fun el =>
    if el.id ∈ selectedIds then
      { el with points := el.points.map fun p => ⟨p.x + dx, p.y + dy⟩ }
    else el

/-- Angle of the point `(x, y)` measured from the positive x-axis,
mirroring `Math.atan2(y, x)` (the argument of the complex number
`x + y*i`, in `(-pi, pi]`). -/
def jsAtan2 (y x : ℝ) : ℝ := Complex.arg ⟨x, y⟩

/-- Rotation-gesture move of the canvas component: the first element
whose id is the single selected id gets its rotation set to the
gesture-start rotation plus the pointer-angle delta about its own
bounding-box center; everything else is untouched. -/
def rotateMove (els : List DrawingElement) (selectedId : String)
    (rotateStartRotation rotateStartAngle : ℝ) (p : Point) : List DrawingElement :=
  match els with
  | [] => []
  | el :: rest =>
      if el.id = selectedId then
        { el with rotation := some (rotateStartRotation +
            (jsAtan2 (p.y - ((startPt el).y + (endPt el).y) / 2)
              (p.x - ((startPt el).x + (endPt el).x) / 2) - rotateStartAngle)) } :: rest
      else el :: rotateMove rest selectedId rotateStartRotation rotateStartAngle p

/-- C1: rotation round-trip. For every point, every center and every angle
in `[-2π, 2π]`, `unrotatePoint` undoes `rotatePoint` exactly (the
real-number idealization of "within floating tolerance"); moreover
`unrotatePoint p c θ = rotatePoint p c (-θ)` and the two functions are
mutually inverse. -/
theorem rotation_round_trip (x y cx cy θ : ℝ)
    (hθ : θ ∈ Set.Icc (-(2 * Real.pi)) (2 * Real.pi)) :
    unrotatePoint (rotatePoint x y cx cy θ).x (rotatePoint x y cx cy θ).y cx cy θ = ⟨x, y⟩ ∧
    unrotatePoint x y cx cy θ = rotatePoint x y cx cy (-θ) ∧
    rotatePoint (unrotatePoint x y cx cy θ).x (unrotatePoint x y cx cy θ).y cx cy θ = ⟨x, y⟩ := by
  have h := Real.sin_sq_add_cos_sq θ
  refine ⟨?_, ?_, ?_⟩
  · ext
    · simp only [rotatePoint, unrotatePoint, Real.cos_neg, Real.sin_neg]
      linear_combination (x - cx) * h
    · simp only [rotatePoint, unrotatePoint, Real.cos_neg, Real.sin_neg]
      linear_combination (y - cy) * h
  · rfl
  · ext
    · simp only [rotatePoint, unrotatePoint, Real.cos_neg, Real.sin_neg]
      linear_combination (x - cx) * h
    · simp only [rotatePoint, unrotatePoint, Real.cos_neg, Real.sin_neg]
      linear_combination (y - cy) * h

/-- Witness for C1 at the concrete input `p = (3, 7)`, `c = (1, 2)`,
`θ = 0`. -/
theorem rotation_round_trip_witness :
    unrotatePoint (rotatePoint 3 7 1 2 0).x (rotatePoint 3 7 1 2 0).y 1 2 0 = ⟨3, 7⟩ ∧
    unrotatePoint 3 7 1 2 0 = rotatePoint 3 7 1 2 (-0) ∧
    rotatePoint (unrotatePoint 3 7 1 2 0).x (unrotatePoint 3 7 1 2 0).y 1 2 0 = ⟨3, 7⟩ :=
  rotation_round_trip 3 7 1 2 0
    ⟨by nlinarith [Real.pi_pos], by nlinarith [Real.pi_pos]⟩

/-- C2: linear history. Immediately after every `pushHistory` the redo
stack is empty, so `redo` invoked in that state is a no-op leaving the
live elements, the undo stack and the redo stack all unchanged; in
particular after an `undo` followed by a new gesture's `pushHistory`,
`redo` is a no-op. -/
theorem pushHistory_clears_redo_and_redo_noop (st : CanvasHistory) :
    (pushHistory st).redoStack = [] ∧
    redo (pushHistory st) = pushHistory st ∧
    redo (pushHistory (undo st)) = pushHistory (undo st) :=
  ⟨rfl, rfl, rfl⟩

/-- Arithmetic helper: when the projection parameter is nonpositive, the
segment start is at least as close as any parameter in `[0, 1]`. -/
theorem seg_min_left (A B C D t : ℝ) (h0 : 0 ≤ t) (hdot : A * C + B * D ≤ 0) :
    A * A + B * B ≤ (A - t * C) ^ 2 + (B - t * D) ^ 2 := by
  nlinarith [mul_nonneg h0 (neg_nonneg.2 hdot),
    mul_nonneg (mul_nonneg h0 h0) (add_nonneg (mul_self_nonneg C) (mul_self_nonneg D))]

/-- Arithmetic helper: when the projection parameter is at least one, the
segment endpoint is at least as close as any parameter in `[0, 1]`. -/
theorem seg_min_right (A B C D t : ℝ) (h1 : t ≤ 1) (hdot : C * C + D * D ≤ A * C + B * D) :
    (A - C) * (A - C) + (B - D) * (B - D) ≤ (A - t * C) ^ 2 + (B - t * D) ^ 2 := by
  nlinarith [mul_nonneg (sub_nonneg.2 h1) (sub_nonneg.2 hdot),
    mul_nonneg (mul_self_nonneg (1 - t)) (add_nonneg (mul_self_nonneg C) (mul_self_nonneg D))]

/-- Arithmetic helper: the unclamped projection parameter minimizes the
squared distance over all real parameters. -/
theorem seg_min_mid (A B C D t u : ℝ) (hu : u * (C * C + D * D) = A * C + B * D) :
    (A - u * C) * (A - u * C) + (B - u * D) * (B - u * D) ≤
      (A - t * C) ^ 2 + (B - t * D) ^ 2 := by
  have e1 : (2 * u - 2 * t) * (u * (C * C + D * D) - (A * C + B * D)) = 0 := by
    rw [hu]; ring
  nlinarith [e1,
    mul_nonneg (add_nonneg (mul_self_nonneg C) (mul_self_nonneg D)) (mul_self_nonneg (t - u))]

/-- Helper: the clamped distance `pointToLineDistance` never exceeds the
distance from `p` to any point of the segment from `a` to `b`. -/
theorem pointToLineDistance_le (p a b : Point) (t : ℝ) (h0 : 0 ≤ t) (h1 : t ≤ 1) :
    pointToLineDistance p a b ≤
      Real.sqrt ((p.x - (a.x + t * (b.x - a.x))) ^ 2 + (p.y - (a.y + t * (b.y - a.y))) ^ 2) := by
  simp only [pointToLineDistance]
  apply Real.sqrt_le_sqrt
  split_ifs with h1' h2' h3'
  · -- projection parameter negative: closest point is the start
    have hlenpos : 0 < (b.x - a.x) * (b.x - a.x) + (b.y - a.y) * (b.y - a.y) :=
      lt_of_le_of_ne (add_nonneg (mul_self_nonneg _) (mul_self_nonneg _)) (Ne.symm h1')
    have hdot : (p.x - a.x) * (b.x - a.x) + (p.y - a.y) * (b.y - a.y) ≤ 0 := by
      by_contra hge
      push_neg at hge
      exact absurd h2' (not_lt.2 (div_nonneg hge.le hlenpos.le))
    have h := seg_min_left (p.x - a.x) (p.y - a.y) (b.x - a.x) (b.y - a.y) t h0 hdot
    nlinarith [h]
  · -- projection parameter beyond one: closest point is the endpoint
    have hlenpos : 0 < (b.x - a.x) * (b.x - a.x) + (b.y - a.y) * (b.y - a.y) :=
      lt_of_le_of_ne (add_nonneg (mul_self_nonneg _) (mul_self_nonneg _)) (Ne.symm h1')
    have hdot : (b.x - a.x) * (b.x - a.x) + (b.y - a.y) * (b.y - a.y) ≤
        (p.x - a.x) * (b.x - a.x) + (p.y - a.y) * (b.y - a.y) :=
      le_of_lt ((one_lt_div hlenpos).mp h3')
    have h := seg_min_right (p.x - a.x) (p.y - a.y) (b.x - a.x) (b.y - a.y) t h1 hdot
    nlinarith [h]
  · -- projection parameter within the segment
    have hu : ((p.x - a.x) * (b.x - a.x) + (p.y - a.y) * (b.y - a.y)) /
          ((b.x - a.x) * (b.x - a.x) + (b.y - a.y) * (b.y - a.y)) *
          ((b.x - a.x) * (b.x - a.x) + (b.y - a.y) * (b.y - a.y)) =
        (p.x - a.x) * (b.x - a.x) + (p.y - a.y) * (b.y - a.y) :=
      div_mul_cancel₀ _ h1'
    have h := seg_min_mid (p.x - a.x) (p.y - a.y) (b.x - a.x) (b.y - a.y) t
      (((p.x - a.x) * (b.x - a.x) + (p.y - a.y) * (b.y - a.y)) /
        ((b.x - a.x) * (b.x - a.x) + (b.y - a.y) * (b.y - a.y))) hu
    nlinarith [h]
  · -- degenerate segment: both endpoints coincide
    push_neg at h1'
    have hC : b.x - a.x = 0 := by
      nlinarith [mul_self_nonneg (b.x - a.x), mul_self_nonneg (b.y - a.y)]
    have hD : b.y - a.y = 0 := by
      nlinarith [mul_self_nonneg (b.x - a.x), mul_self_nonneg (b.y - a.y)]
    rw [hC, hD]
    ring_nf
    exact le_refl _
  · -- the constant branch parameter is negative, so this case is vacuous
    exact absurd (by norm_num : (-1 : ℝ) < 0) (by assumption)
  · exact absurd (by norm_num : (-1 : ℝ) < 0) (by assumption)

/-- Helper: `pointToLineDistance` is attained at some parameter in
`[0, 1]`, namely the clamped projection parameter. -/
theorem pointToLineDistance_attained (p a b : Point) :
    ∃ t : ℝ, 0 ≤ t ∧ t ≤ 1 ∧
      pointToLineDistance p a b =
        Real.sqrt ((p.x - (a.x + t * (b.x - a.x))) ^ 2 + (p.y - (a.y + t * (b.y - a.y))) ^ 2) := by
  simp only [pointToLineDistance]
  split_ifs with h1' h2' h3'
  · exact ⟨0, le_refl 0, by norm_num, by congr 1; ring⟩
  · exact ⟨1, by norm_num, le_refl 1, by congr 1; ring⟩
  · refine ⟨((p.x - a.x) * (b.x - a.x) + (p.y - a.y) * (b.y - a.y)) /
      ((b.x - a.x) * (b.x - a.x) + (b.y - a.y) * (b.y - a.y)), not_lt.mp h2', not_lt.mp h3',
      by congr 1; ring⟩
  · exact ⟨0, le_refl 0, by norm_num, by congr 1; ring⟩
  · exact absurd (by norm_num : (-1 : ℝ) < 0) (by assumption)
  · exact absurd (by norm_num : (-1 : ℝ) < 0) (by assumption)

/-- C5 (amended): the selection composable's `hitTest` for a line element
returns true exactly when some point of the segment between the stored
endpoints lies strictly within 8 px of the query point, i.e. the clamped
point-to-segment distance is below the threshold. (The canvas component's
`hitTestPointInElement` instead uses the unclamped infinite-line
distance; see the counterexample.) -/
theorem line_hit_test_segment_distance (el : DrawingElement) (a b p : Point)
    (ht : el.type = ElementType.line) (hp : el.points = [a, b]) :
    hitTest p el ↔
      ∃ t : ℝ, 0 ≤ t ∧ t ≤ 1 ∧
        Real.sqrt ((p.x - (a.x + t * (b.x - a.x))) ^ 2 +
          (p.y - (a.y + t * (b.y - a.y))) ^ 2) < 8 := by
  have hs : startPt el = a := by simp [startPt, hp]
  have he : endPt el = b := by simp [endPt, hp]
  simp only [hitTest, ht, hs, he]
  constructor
  · intro h
    obtain ⟨t, ht0, ht1, heq⟩ := pointToLineDistance_attained p a b
    exact ⟨t, ht0, ht1, heq ▸ h⟩
  · rintro ⟨t, ht0, ht1, hlt⟩
    exact lt_of_le_of_lt (pointToLineDistance_le p a b t ht0 ht1) hlt

/-- Witness for C5 at the line `(0,0)`-`(10,0)` and the query point
`(2,1)`. -/
theorem line_hit_test_segment_distance_witness :
    hitTest ⟨2, 1⟩ lineEx ↔
      ∃ t : ℝ, 0 ≤ t ∧ t ≤ 1 ∧
        Real.sqrt (((2 : ℝ) - (0 + t * (10 - 0))) ^ 2 + ((1 : ℝ) - (0 + t * (0 - 0))) ^ 2) < 8 :=
  line_hit_test_segment_distance lineEx ⟨0, 0⟩ ⟨10, 0⟩ ⟨2, 1⟩ rfl rfl

/-- Counterexample for C5 as stated: for the line `(0,0)`-`(10,0)` the
query point `(100,0)` is 90 px from the segment (beyond the endpoint),
yet the canvas component's `hitTestPointInElement` reports a hit because
it measures the distance to the infinite line. -/
theorem line_hit_test_counterexample :
    hitTestPointInElement ⟨100, 0⟩ lineEx ∧
      ¬ pointToLineDistance ⟨100, 0⟩ ⟨0, 0⟩ ⟨10, 0⟩ < 8 := by
  constructor
  · show hitTestPointInElement ⟨100, 0⟩ lineEx
    norm_num [hitTestPointInElement, lineEx, startPt, endPt, List.getD]
  · have : pointToLineDistance ⟨100, 0⟩ ⟨0, 0⟩ ⟨10, 0⟩ = Real.sqrt 8100 := by
      norm_num [pointToLineDistance]
    rw [this, not_lt]
    rw [show (8100 : ℝ) = 90 ^ 2 by norm_num, Real.sqrt_sq (by norm_num : (0:ℝ) ≤ 90)]
    norm_num

/-- Helper: `resizeElement` never changes the element type. -/
theorem resizeElement_type (el : DrawingElement) (i : ℕ) (tgt : Point) :
    (resizeElement el i tgt).type = el.type := by
  simp only [resizeElement]
  split_ifs <;> rfl

/-- Helper: the anchors of a box element whose stored points are already
normalized, spelled out. -/
theorem getAnchors_boxed (el : DrawingElement) (s e : Point)
    (htype3 : el.type = ElementType.rectangle ∨ el.type = ElementType.ellipse ∨
      el.type = ElementType.text)
    (hp : el.points = [s, e]) (hx : s.x ≤ e.x) (hy : s.y ≤ e.y) :
    getAnchors el =
      [⟨s.x, s.y⟩, ⟨(s.x + e.x) / 2, s.y⟩, ⟨e.x, s.y⟩, ⟨e.x, (s.y + e.y) / 2⟩,
        ⟨e.x, e.y⟩, ⟨(s.x + e.x) / 2, e.y⟩, ⟨s.x, e.y⟩, ⟨s.x, (s.y + e.y) / 2⟩] := by
  have hs : startPt el = s := by simp [startPt, hp]
  have he : endPt el = e := by simp [endPt, hp]
  simp only [getAnchors, if_pos htype3, hs, he, min_eq_left hx, max_eq_right hx,
    min_eq_left hy, max_eq_right hy]

/-- Helper: for a box element with normalized stored points, a
non-crossing resize from anchor `i` keeps the opposite anchor
`(i + 4) % 8` in place. -/
theorem resize_opposite_box (el : DrawingElement) (s e tgt : Point) (i : ℕ)
    (htype3 : el.type = ElementType.rectangle ∨ el.type = ElementType.ellipse ∨
      el.type = ElementType.text)
    (hp : el.points = [s, e]) (hx : s.x ≤ e.x) (hy : s.y ≤ e.y)
    (hnc : noCross i s e tgt) :
    (getAnchors (resizeElement el i tgt)).get? ((i + 4) % 8) =
      (getAnchors el).get? ((i + 4) % 8) := by
  have hs : startPt el = s := by simp [startPt, hp]
  have he : endPt el = e := by simp [endPt, hp]
  have htype4 : el.type = ElementType.rectangle ∨ el.type = ElementType.ellipse ∨
      el.type = ElementType.diamond ∨ el.type = ElementType.text := by tauto
  have hty' : (resizeElement el i tgt).type = el.type := resizeElement_type el i tgt
  have hty3' : (resizeElement el i tgt).type = ElementType.rectangle ∨
      (resizeElement el i tgt).type = ElementType.ellipse ∨
      (resizeElement el i tgt).type = ElementType.text := by rw [hty']; exact htype3
  rcases i with _ | _ | _ | _ | _ | _ | _ | _ | i
  · obtain ⟨h1, h2⟩ := hnc
    have hpts : (resizeElement el 0 tgt).points =
        [⟨min tgt.x e.x, min tgt.y e.y⟩, ⟨max tgt.x e.x, max tgt.y e.y⟩] := by
      simp only [resizeElement, if_pos htype4, hs, he]
    rw [min_eq_left h1, min_eq_left h2, max_eq_right h1, max_eq_right h2] at hpts
    rw [getAnchors_boxed el s e htype3 hp hx hy,
      getAnchors_boxed (resizeElement el 0 tgt) ⟨tgt.x, tgt.y⟩ ⟨e.x, e.y⟩ hty3' hpts h1 h2]
    rfl
  · have h2 : tgt.y ≤ e.y := hnc
    have hpts : (resizeElement el 1 tgt).points =
        [⟨min s.x e.x, min tgt.y e.y⟩, ⟨max s.x e.x, max tgt.y e.y⟩] := by
      simp only [resizeElement, if_pos htype4, hs, he]
    rw [min_eq_left hx, min_eq_left h2, max_eq_right hx, max_eq_right h2] at hpts
    rw [getAnchors_boxed el s e htype3 hp hx hy,
      getAnchors_boxed (resizeElement el 1 tgt) ⟨s.x, tgt.y⟩ ⟨e.x, e.y⟩ hty3' hpts hx h2]
    rfl
  · obtain ⟨h1, h2⟩ := hnc
    have hpts : (resizeElement el 2 tgt).points =
        [⟨min s.x tgt.x, min tgt.y e.y⟩, ⟨max s.x tgt.x, max tgt.y e.y⟩] := by
      simp only [resizeElement, if_pos htype4, hs, he]
    rw [min_eq_left h1, min_eq_left h2, max_eq_right h1, max_eq_right h2] at hpts
    rw [getAnchors_boxed el s e htype3 hp hx hy,
      getAnchors_boxed (resizeElement el 2 tgt) ⟨s.x, tgt.y⟩ ⟨tgt.x, e.y⟩ hty3' hpts h1 h2]
    rfl
  · have h1 : s.x ≤ tgt.x := hnc
    have hpts : (resizeElement el 3 tgt).points =
        [⟨min s.x tgt.x, min s.y e.y⟩, ⟨max s.x tgt.x, max s.y e.y⟩] := by
      simp only [resizeElement, if_pos htype4, hs, he]
    rw [min_eq_left h1, min_eq_left hy, max_eq_right h1, max_eq_right hy] at hpts
    rw [getAnchors_boxed el s e htype3 hp hx hy,
      getAnchors_boxed (resizeElement el 3 tgt) ⟨s.x, s.y⟩ ⟨tgt.x, e.y⟩ hty3' hpts h1 hy]
    rfl
  · obtain ⟨h1, h2⟩ := hnc
    have hpts : (resizeElement el 4 tgt).points =
        [⟨min s.x tgt.x, min s.y tgt.y⟩, ⟨max s.x tgt.x, max s.y tgt.y⟩] := by
      simp only [resizeElement, if_pos htype4, hs, he]
    rw [min_eq_left h1, min_eq_left h2, max_eq_right h1, max_eq_right h2] at hpts
    rw [getAnchors_boxed el s e htype3 hp hx hy,
      getAnchors_boxed (resizeElement el 4 tgt) ⟨s.x, s.y⟩ ⟨tgt.x, tgt.y⟩ hty3' hpts h1 h2]
    rfl
  · have h2 : s.y ≤ tgt.y := hnc
    have hpts : (resizeElement el 5 tgt).points =
        [⟨min s.x e.x, min s.y tgt.y⟩, ⟨max s.x e.x, max s.y tgt.y⟩] := by
      simp only [resizeElement, if_pos htype4, hs, he]
    rw [min_eq_left hx, min_eq_left h2, max_eq_right hx, max_eq_right h2] at hpts
    rw [getAnchors_boxed el s e htype3 hp hx hy,
      getAnchors_boxed (resizeElement el 5 tgt) ⟨s.x, s.y⟩ ⟨e.x, tgt.y⟩ hty3' hpts hx h2]
    rfl
  · obtain ⟨h1, h2⟩ := hnc
    have hpts : (resizeElement el 6 tgt).points =
        [⟨min tgt.x e.x, min s.y tgt.y⟩, ⟨max tgt.x e.x, max s.y tgt.y⟩] := by
      simp only [resizeElement, if_pos htype4, hs, he]
    rw [min_eq_left h1, min_eq_left h2, max_eq_right h1, max_eq_right h2] at hpts
    rw [getAnchors_boxed el s e htype3 hp hx hy,
      getAnchors_boxed (resizeElement el 6 tgt) ⟨tgt.x, s.y⟩ ⟨e.x, tgt.y⟩ hty3' hpts h1 h2]
    rfl
  · have h1 : tgt.x ≤ e.x := hnc
    have hpts : (resizeElement el 7 tgt).points =
        [⟨min tgt.x e.x, min s.y e.y⟩, ⟨max tgt.x e.x, max s.y e.y⟩] := by
      simp only [resizeElement, if_pos htype4, hs, he]
    rw [min_eq_left h1, min_eq_left hy, max_eq_right h1, max_eq_right hy] at hpts
    rw [getAnchors_boxed el s e htype3 hp hx hy,
      getAnchors_boxed (resizeElement el 7 tgt) ⟨tgt.x, s.y⟩ ⟨e.x, e.y⟩ hty3' hpts h1 hy]
    rfl
  · exact absurd hnc (by simp [noCross])

/-- C3 (amended): for a two-point box shape whose stored pair is
normalized (start is the min corner, end the max corner) and whose anchor
drag does not cross the fixed opposite anchor, `resizeElement` from
anchor `i` leaves the position of anchor `(i + 4) % 8` computed by
`getAnchors` exactly unchanged (for diamonds `getAnchors` is empty on
both sides). Without these two conditions the opposite anchor can move;
see the counterexample. -/
theorem resize_opposite_anchor_fixed (el : DrawingElement) (s e tgt : Point) (i : ℕ)
    (htype : el.type = ElementType.rectangle ∨ el.type = ElementType.ellipse ∨
      el.type = ElementType.diamond ∨ el.type = ElementType.text)
    (hp : el.points = [s, e]) (hx : s.x ≤ e.x) (hy : s.y ≤ e.y)
    (hnc : noCross i s e tgt) :
    (getAnchors (resizeElement el i tgt)).get? ((i + 4) % 8) =
      (getAnchors el).get? ((i + 4) % 8) := by
  rcases htype with hR | hE | hD | hT
  · exact resize_opposite_box el s e tgt i (Or.inl hR) hp hx hy hnc
  · exact resize_opposite_box el s e tgt i (Or.inr (Or.inl hE)) hp hx hy hnc
  · have g1 : getAnchors el = [] := by
      simp [getAnchors, hD]
    have g2 : getAnchors (resizeElement el i tgt) = [] := by
      simp [getAnchors, resizeElement_type, hD]
    rw [g1, g2]
  · exact resize_opposite_box el s e tgt i (Or.inr (Or.inr hT)) hp hx hy hnc

/-- Witness for C3 at the rectangle `(0,0)`-`(100,50)`, anchor 0, target
`(10,10)`. -/
theorem resize_opposite_anchor_fixed_witness :
    (getAnchors (resizeElement rectEx 0 ⟨10, 10⟩)).get? ((0 + 4) % 8) =
      (getAnchors rectEx).get? ((0 + 4) % 8) :=
  resize_opposite_anchor_fixed rectEx ⟨0, 0⟩ ⟨100, 50⟩ ⟨10, 10⟩ 0 (Or.inl rfl) rfl
    (by norm_num) (by norm_num) ⟨by norm_num, by norm_num⟩

/-- Counterexample for C3 as stated: dragging anchor 0 of the rectangle
`(0,0)`-`(100,50)` to `(200,60)` crosses the opposite corner, and the
position of anchor 4 reported by `getAnchors` changes from `(100,50)` to
`(200,60)`. -/
theorem resize_opposite_anchor_counterexample :
    (getAnchors (resizeElement rectEx 0 ⟨200, 60⟩)).get? 4 ≠ (getAnchors rectEx).get? 4 := by
  have h1 : (getAnchors (resizeElement rectEx 0 ⟨200, 60⟩)).get? 4 = some ⟨200, 60⟩ := by
    norm_num [getAnchors, resizeElement, rectEx, startPt, endPt, min_def, max_def]
  have h2 : (getAnchors rectEx).get? 4 = some ⟨100, 50⟩ := by
    norm_num [getAnchors, rectEx, startPt, endPt, min_def, max_def]
  rw [h1, h2]
  simp only [ne_eq, Option.some.injEq, Point.mk.injEq, not_and]
  intro hcontra
  norm_num at hcontra

/-- Helper: the width of an interval centered at `c`. -/
theorem half_span (c w : ℝ) : c + w / 2 - (c - w / 2) = w := by ring

/-- C4 (amended): the rotated resize path of
`resizeElementWithRotation` enforces the 10 px minimum on both the width
and the height of the stored box, and the unrotated `resizeElement` path
always stores a normalized, never inverted (min-corner, max-corner) pair;
but the unrotated path has no size floor and can produce a degenerate
zero-size box, as the counterexample shows. -/
theorem resize_box_never_inverted :
    (∀ (el : DrawingElement) (i : ℕ) (tgt sp : Point) (d : Option Point),
      el.type ≠ ElementType.line → el.rotation.getD 0 ≠ 0 →
      10 ≤ ((resizeElementWithRotation el i tgt (some sp) d).1.points.getD 1 origin).x -
          ((resizeElementWithRotation el i tgt (some sp) d).1.points.getD 0 origin).x ∧
      10 ≤ ((resizeElementWithRotation el i tgt (some sp) d).1.points.getD 1 origin).y -
          ((resizeElementWithRotation el i tgt (some sp) d).1.points.getD 0 origin).y) ∧
    (∀ (el : DrawingElement) (i : ℕ) (tgt : Point),
      (el.type = ElementType.rectangle ∨ el.type = ElementType.ellipse ∨
        el.type = ElementType.diamond ∨ el.type = ElementType.text) →
      ((resizeElement el i tgt).points.getD 0 origin).x ≤
        ((resizeElement el i tgt).points.getD 1 origin).x ∧
      ((resizeElement el i tgt).points.getD 0 origin).y ≤
        ((resizeElement el i tgt).points.getD 1 origin).y) := by
  constructor
  · intro el i tgt sp d hline hrot
    simp only [resizeElementWithRotation, if_neg hline, if_neg hrot]
    constructor
    · simp only [List.getD, List.get?, Option.getD_some]
      rw [half_span]
      exact le_max_left _ _
    · simp only [List.getD, List.get?, Option.getD_some]
      rw [half_span]
      exact le_max_left _ _
  · intro el i tgt htype
    simp only [resizeElement, if_pos htype]
    constructor
    · simp only [List.getD, List.get?, Option.getD_some]
      exact min_le_max
    · simp only [List.getD, List.get?, Option.getD_some]
      exact min_le_max

/-- Witness for C4: the rotated path at `rotEx` keeps width at least
10 px, and the unrotated path at `rectEx` stores a normalized pair. -/
theorem resize_box_never_inverted_witness :
    10 ≤ ((resizeElementWithRotation rotEx 0 ⟨60, 60⟩ (some ⟨50, 50⟩) none).1.points.getD 1
          origin).x -
        ((resizeElementWithRotation rotEx 0 ⟨60, 60⟩ (some ⟨50, 50⟩) none).1.points.getD 0
          origin).x ∧
    ((resizeElement rectEx 0 ⟨100, 50⟩).points.getD 0 origin).x ≤
      ((resizeElement rectEx 0 ⟨100, 50⟩).points.getD 1 origin).x :=
  ⟨(resize_box_never_inverted.1 rotEx 0 ⟨60, 60⟩ ⟨50, 50⟩ none (by simp [rotEx])
      (by norm_num [rotEx])).1,
    (resize_box_never_inverted.2 rectEx 0 ⟨100, 50⟩ (Or.inl rfl)).1⟩

/-- Counterexample for C4 as stated: dragging anchor 0 of the unrotated
rectangle `(0,0)`-`(100,50)` exactly onto the opposite corner produces
the degenerate stored box `[(100,50),(100,50)]` of width and height 0 —
there is no minimum-size floor on the unrotated path. -/
theorem resize_min_size_counterexample :
    (resizeElementWithRotation rectEx 0 ⟨100, 50⟩ (some ⟨0, 0⟩) none).1.points =
      [⟨100, 50⟩, ⟨100, 50⟩] ∧
    ((resizeElementWithRotation rectEx 0 ⟨100, 50⟩ (some ⟨0, 0⟩) none).1.points.getD 1
        origin).x -
      ((resizeElementWithRotation rectEx 0 ⟨100, 50⟩ (some ⟨0, 0⟩) none).1.points.getD 0
        origin).x = 0 := by
  have heval : (resizeElementWithRotation rectEx 0 ⟨100, 50⟩ (some ⟨0, 0⟩) none).1.points =
      [⟨100, 50⟩, ⟨100, 50⟩] := by
    norm_num [resizeElementWithRotation, resizeElement, rectEx, startPt, endPt,
      min_def, max_def]
  refine ⟨heval, ?_⟩
  rw [heval]
  norm_num [List.getD]

/-- C7: at the degenerate input (zero-size rotated box, anchor
coinciding with its opposite anchor) the resize operation does not fall
back to leaving the element unchanged: in the idealized real-number model
the division by the zero anchor distance yields 0 and the element is
overwritten with a forced 10-by-10 box; under JavaScript float semantics
the same division is 0/0 = NaN and NaN coordinates are stored. Either
way the element changes, contradicting the required no-change fallback. -/
theorem degenerate_resize_changes_element :
    (resizeElementWithRotation degenEx 0 ⟨60, 60⟩ (some ⟨50, 50⟩) none).1.points =
      [⟨45, 45⟩, ⟨55, 55⟩] ∧
    (resizeElementWithRotation degenEx 0 ⟨60, 60⟩ (some ⟨50, 50⟩) none).1.points ≠
      degenEx.points := by
  have heval : (resizeElementWithRotation degenEx 0 ⟨60, 60⟩ (some ⟨50, 50⟩) none).1.points =
      [⟨45, 45⟩, ⟨55, 55⟩] := by
    norm_num [resizeElementWithRotation, degenEx, startPt, endPt, rotatePoint,
      Real.sign_zero, min_def, max_def]
    rw [if_neg (by decide : ¬(ElementType.rectangle = ElementType.line))]
  refine ⟨heval, ?_⟩
  rw [heval]
  simp only [degenEx, ne_eq, List.cons.injEq, Point.mk.injEq]
  intro hcontra
  norm_num at hcontra

/-- C8 (amended): `updateElement` always preserves the number and order
of elements, and for every partial update that does not itself carry an
`id` field the id of every element after the call equals its id before
the call. (An update that does carry an `id` overwrites the element id,
as the counterexample shows.) -/
theorem updateElement_preserves_ids :
    (∀ (els : List DrawingElement) (targetId : String) (u : ElementUpdate),
      (updateElement els targetId u).length = els.length) ∧
    (∀ (els : List DrawingElement) (targetId : String) (u : ElementUpdate),
      u.id = none →
      (updateElement els targetId u).map DrawingElement.id = els.map DrawingElement.id) := by
  constructor
  · intro els targetId u
    induction els with
    | nil => rfl
    | cons el rest ih =>
        simp only [updateElement]
        split_ifs <;> simp [ih]
  · intro els targetId u hid
    induction els with
    | nil => rfl
    | cons el rest ih =>
        simp only [updateElement]
        split_ifs with h
        · simp [objectAssign, hid]
        · simp [ih]

/-- Witness for C8 at a one-element collection and an id-free color
update. -/
theorem updateElement_preserves_ids_witness :
    (updateElement [rectEx] "r1" updEx).map DrawingElement.id =
      [rectEx].map DrawingElement.id :=
  updateElement_preserves_ids.2 [rectEx] "r1" updEx rfl

/-- Counterexample for C8 as stated: a partial update carrying
`id := "b"` replaces the element id `"r1"` with `"b"`, so the id after
the call differs from the id before. -/
theorem updateElement_id_counterexample :
    (updateElement [rectEx] "r1" updIdEx).map DrawingElement.id = ["b"] ∧
    [rectEx].map DrawingElement.id = ["r1"] ∧
    (updateElement [rectEx] "r1" updIdEx).map DrawingElement.id ≠
      [rectEx].map DrawingElement.id := by
  refine ⟨rfl, rfl, ?_⟩
  intro hcontra
  simp only [updateElement, updIdEx, rectEx, objectAssign] at hcontra
  exact absurd hcontra (by simp)

/-- C9: multi-select drag translation. For every element collection,
selection and pointer delta `(dx, dy)`, the element at each position
after the drag move is: the original element with every point translated
by exactly `(dx, dy)` and all other attributes unchanged if it is
selected, and the original element completely unchanged otherwise. -/
theorem multi_select_drag (els : List DrawingElement) (selectedIds : List String)
    (dx dy : ℝ) (i : ℕ) (el : DrawingElement) (hel : els.get? i = some el) :
    (dragSelected els selectedIds dx dy).get? i =
      some (if el.id ∈ selectedIds then
        { el with points := el.points.map fun p => ⟨p.x + dx, p.y + dy⟩ }
      else el) := by
  simp only [dragSelected, List.get?_map, hel, Option.map_some']

/-- Witness for C9: dragging the selection `["r1"]` by `(3,4)` over the
collection `[rectEx, lineEx]` leaves the unselected line unchanged. -/
theorem multi_select_drag_witness :
    (dragSelected [rectEx, lineEx] ["r1"] 3 4).get? 1 =
      some (if lineEx.id ∈ ["r1"] then
        { lineEx with points := lineEx.points.map fun p => ⟨p.x + 3, p.y + 4⟩ }
      else lineEx) :=
  multi_select_drag [rectEx, lineEx] ["r1"] 3 4 1 lineEx rfl

/-- C10: rotation gesture frame property. During a rotation move, the
element at each position keeps its id, type, points, color, strokeWidth,
isSelected and text; an element whose id is not the selected id is
completely unchanged; and any element that changes at all only has its
rotation replaced by the gesture-start rotation plus the `atan2` angle
delta about its own center. -/
theorem rotation_move_frame (els : List DrawingElement) (selectedId : String)
    (rotateStartRotation rotateStartAngle : ℝ) (p : Point) (i : ℕ) (el : DrawingElement)
    (hel : els.get? i = some el) :
    ∃ el2,
      (rotateMove els selectedId rotateStartRotation rotateStartAngle p).get? i = some el2 ∧
      el2.id = el.id ∧ el2.type = el.type ∧ el2.points = el.points ∧
      el2.color = el.color ∧ el2.strokeWidth = el.strokeWidth ∧
      el2.isSelected = el.isSelected ∧ el2.text = el.text ∧
      (el.id ≠ selectedId → el2 = el) ∧
      (el2 = el ∨ el2.rotation = some (rotateStartRotation +
        (jsAtan2 (p.y - ((startPt el).y + (endPt el).y) / 2)
          (p.x - ((startPt el).x + (endPt el).x) / 2) - rotateStartAngle))) := by
  induction els generalizing i with
  | nil => simp at hel
  | cons hd rest ih =>
      cases i with
      | zero =>
          simp only [List.get?] at hel
          injection hel with hel
          subst hel
          by_cases h : hd.id = selectedId
          · refine ⟨{ hd with rotation := some (rotateStartRotation +
                (jsAtan2 (p.y - ((startPt hd).y + (endPt hd).y) / 2)
                  (p.x - ((startPt hd).x + (endPt hd).x) / 2) - rotateStartAngle)) },
              ?_, rfl, rfl, rfl, rfl, rfl, rfl, rfl, fun hne => absurd h hne, Or.inr rfl⟩
            simp only [rotateMove, if_pos h, List.get?]
          · exact ⟨hd, by simp only [rotateMove, if_neg h, List.get?], rfl, rfl, rfl, rfl,
              rfl, rfl, rfl, fun _ => rfl, Or.inl rfl⟩
      | succ j =>
          simp only [List.get?] at hel
          by_cases h : hd.id = selectedId
          · exact ⟨el, by simp only [rotateMove, if_pos h, List.get?, hel], rfl, rfl, rfl,
              rfl, rfl, rfl, rfl, fun _ => rfl, Or.inl rfl⟩
          · obtain ⟨el2, hget, hrest⟩ := ih j hel
            exact ⟨el2, by simp only [rotateMove, if_neg h, List.get?, hget], hrest⟩

/-- Witness for C10 at the one-element collection `[rectEx]` with the
selected id `"r1"`. -/
theorem rotation_move_frame_witness :
    ∃ el2, (rotateMove [rectEx] "r1" 0 0 ⟨0, 0⟩).get? 0 = some el2 ∧
      el2.id = rectEx.id ∧ el2.type = rectEx.type ∧ el2.points = rectEx.points ∧
      el2.color = rectEx.color ∧ el2.strokeWidth = rectEx.strokeWidth ∧
      el2.isSelected = rectEx.isSelected ∧ el2.text = rectEx.text ∧
      (rectEx.id ≠ "r1" → el2 = rectEx) ∧
      (el2 = rectEx ∨ el2.rotation = some (0 +
        (jsAtan2 ((0 : ℝ) - ((startPt rectEx).y + (endPt rectEx).y) / 2)
          ((0 : ℝ) - ((startPt rectEx).x + (endPt rectEx).x) / 2) - 0))) :=
  rotation_move_frame [rectEx] "r1" 0 0 ⟨0, 0⟩ 0 rectEx rfl

/-- Helper: a guarded branch `if c1 or c2 then False else P` says exactly
that both guards fail and `P` holds. -/
theorem ite_or_false_iff (c1 c2 P : Prop) [Decidable (c1 ∨ c2)] :
    (if c1 ∨ c2 then False else P) ↔ (¬c1 ∧ ¬c2 ∧ P) := by
  by_cases h : c1 ∨ c2
  · simp only [if_pos h]
    constructor
    · intro hf
      exact hf.elim
    · rintro ⟨h1, h2, _⟩
      rcases h with h | h
      · exact h1 h
      · exact h2 h
  · rw [if_neg h]
    push_neg at h
    tauto

/-- C6: ellipse hit test. For every unrotated ellipse element a point hits
(under both the selection composable's `hitTest` and the canvas
component's `hitTestPointInElement`) exactly when the normalized ellipse
equation holds with center and radii derived by min/max from the stored
two points and both radii are nonzero; for the ellipse stored as
`(0,0)`-`(100,50)`, the center `(50,25)` hits, the boundary point
`(100,25)` hits, and `(101,25)` does not. -/
theorem ellipse_hit_test_characterization :
    (∀ (el : DrawingElement) (s e p : Point),
      el.type = ElementType.ellipse → el.points = [s, e] → el.rotation = none →
      ((hitTest p el ↔ specEllipseContains s e p) ∧
       (hitTestPointInElement p el ↔ specEllipseContains s e p))) ∧
    hitTest ⟨50, 25⟩ ellipseEx ∧ hitTest ⟨100, 25⟩ ellipseEx ∧ ¬ hitTest ⟨101, 25⟩ ellipseEx := by
  refine ⟨?_, ?_, ?_, ?_⟩
  · intro el s e p ht hp hrot
    have hs : startPt el = s := by simp [startPt, hp]
    have he : endPt el = e := by simp [endPt, hp]
    have hrx : |e.x - s.x| / 2 = (max s.x e.x - min s.x e.x) / 2 := by
      rw [max_sub_min_eq_abs, abs_sub_comm]
    have hry : |e.y - s.y| / 2 = (max s.y e.y - min s.y e.y) / 2 := by
      rw [max_sub_min_eq_abs, abs_sub_comm]
    have hcx : (s.x + e.x) / 2 = (min s.x e.x + max s.x e.x) / 2 := by rw [min_add_max]
    have hcy : (s.y + e.y) / 2 = (min s.y e.y + max s.y e.y) / 2 := by rw [min_add_max]
    constructor
    · simp only [hitTest, ht, hs, he, specEllipseContains, hrx, hry, hcx, hcy]
      exact ite_or_false_iff _ _ _
    · have hrot0 : el.rotation.getD 0 = (0 : ℝ) := by rw [hrot]; rfl
      simp only [hitTestPointInElement, ht, hs, he, hrot0, ne_eq, eq_self_iff_true,
        not_true, if_false, specEllipseContains, hrx, hry]
      exact ite_or_false_iff _ _ _
  · norm_num [hitTest, ellipseEx, startPt, endPt, List.getD]
  · norm_num [hitTest, ellipseEx, startPt, endPt, List.getD]
  · norm_num [hitTest, ellipseEx, startPt, endPt, List.getD]

/-- Witness for C6 at the ellipse stored as `(0,0)`-`(100,50)` and the
query point `(50,25)`. -/
theorem ellipse_hit_test_characterization_witness :
    (hitTest ⟨50, 25⟩ ellipseEx ↔ specEllipseContains ⟨0, 0⟩ ⟨100, 50⟩ ⟨50, 25⟩) ∧
    (hitTestPointInElement ⟨50, 25⟩ ellipseEx ↔ specEllipseContains ⟨0, 0⟩ ⟨100, 50⟩ ⟨50, 25⟩) :=
  ellipse_hit_test_characterization.1 ellipseEx ⟨0, 0⟩ ⟨100, 50⟩ ⟨50, 25⟩ rfl rfl rfl

end

end DrawingBoard
